import Mathlib

/-
Verification of the Gemini Voice Notepad core against its specification.

The development shallowly embeds the three relevant source modules:
  * src/types.ts                 -- shared data model
  * src/services/geminiService.ts -- TranscriptionClient (module init + parsing)
  * src/unnamed/part_001 (RecordingPane) -- recording-session state machine
  * src/unnamed/part_000 (App)   -- SessionOrchestrator

Asynchronous handlers are embedded as a step function over explicit state;
each remote call in flight is recorded in a pending list, and its resolution
is a separate event.  Platform builtins that the code relies on (JSON.parse,
Date.now, setInterval, MediaRecorder) are modelled explicitly where a claim
depends on them.
-/

set_option linter.unusedVariables false
set_option linter.unnecessarySimpa false

/- ======================= src/types.ts ======================= -/

/-- RecordingState from src/types.ts: enum of idle, recording, paused, stopped. -/
inductive RecordingState where
  | Idle
  | Recording
  | Paused
  | Stopped
deriving DecidableEq, Repr

/-- Transcription from src/types.ts: a title and content pair. -/
structure Transcription where
  title : String
  content : String
deriving DecidableEq, Repr

/-- ReformatFormat from src/types.ts: closed set of document kinds. -/
inductive ReformatFormat where
  | email
  | memo
  | blogPost
  | summary
  | developmentPrompt
  | aiPrompt
  | meetingMinutes
  | socialMediaPost
  | pressRelease
  | toDoList
deriving DecidableEq, Repr

/-- ReformatStyle from src/types.ts. -/
inductive ReformatStyle where
  | businessAppropriate
  | formal
  | informal
deriving DecidableEq, Repr

/-- ReformatOptions from src/types.ts. -/
structure ReformatOptions where
  format : ReformatFormat
  style : ReformatStyle
deriving DecidableEq, Repr

/- ======================= JSON.parse model =======================

The service code calls the platform builtin JSON.parse on the trimmed
response text (geminiService.ts lines 50-51 and 75-76) and casts the result
without validating it.  We model the JavaScript value JSON.parse produces and
a faithful parser for the JSON grammar: objects, arrays, strings (with escape
sequences), numbers (kept as their lexeme, since no claim inspects numeric
values), booleans and null.  Parsing is fueled; the fuel is sized from the
input length, which bounds both nesting depth and member count. -/

/-- JavaScript values as produced by JSON.parse. -/
inductive JsValue where
  | null
  | bool (b : Bool)
  | num (lexeme : String)
  | str (s : String)
  | arr (elems : List JsValue)
  | obj (fields : List (String × JsValue))

/-- JSON whitespace characters accepted between tokens by JSON.parse. -/
def isJsonWs (c : Char) : Bool :=
  c = ' ' || c = '\t' || c = '\n' || c = '\r'

/-- Drop leading JSON whitespace. -/
def skipWs : List Char → List Char
  | [] => []
  | c :: cs => if isJsonWs c then skipWs cs else c :: cs

/-- Hexadecimal digit value, for \u escapes. -/
def hexVal (c : Char) : Option Nat :=
  if '0' ≤ c ∧ c ≤ '9' then some (c.toNat - '0'.toNat)
  else if 'a' ≤ c ∧ c ≤ 'f' then some (c.toNat - 'a'.toNat + 10)
  else if 'A' ≤ c ∧ c ≤ 'F' then some (c.toNat - 'A'.toNat + 10)
  else none

/-- Prepend a character to a partial string-parse result. -/
def strCons (c : Char) : Option (List Char × List Char) → Option (List Char × List Char)
  | none => none
  | some (l, r) => some (c :: l, r)

/-- Parse the body of a JSON string literal, after the opening quote,
returning the decoded characters and the rest of the input. -/
def parseStringChars : List Char → Option (List Char × List Char)
  | [] => none
  | '"' :: rest => some ([], rest)
  | '\\' :: rest =>
    match rest with
    | '"' :: r => strCons '"' (parseStringChars r)
    | '\\' :: r => strCons '\\' (parseStringChars r)
    | '/' :: r => strCons '/' (parseStringChars r)
    | 'b' :: r => strCons (Char.ofNat 8) (parseStringChars r)
    | 'f' :: r => strCons (Char.ofNat 12) (parseStringChars r)
    | 'n' :: r => strCons '\n' (parseStringChars r)
    | 'r' :: r => strCons '\r' (parseStringChars r)
    | 't' :: r => strCons '\t' (parseStringChars r)
    | 'u' :: h1 :: h2 :: h3 :: h4 :: r =>
      match hexVal h1, hexVal h2, hexVal h3, hexVal h4 with
      | some a, some b, some c, some d =>
        strCons (Char.ofNat (((a * 16 + b) * 16 + c) * 16 + d)) (parseStringChars r)
      | _, _, _, _ => none
    | _ => none
  | c :: rest => if c.toNat < 32 then none else strCons c (parseStringChars rest)

/-- Parse a JSON string literal body into a String. -/
def parseStringBody (cs : List Char) : Option (String × List Char) :=
  (parseStringChars cs).map (fun p => (String.mk p.1, p.2))

/-- Take a maximal run of decimal digits. -/
def takeDigits : List Char → (List Char × List Char)
  | [] => ([], [])
  | c :: cs =>
    if c.isDigit then
      let p := takeDigits cs
      (c :: p.1, p.2)
    else ([], c :: cs)

/-- Integer part of a JSON number: a single 0, or a nonzero digit followed
by digits (JSON forbids other leading zeros). -/
def parseIntPart : List Char → Option (List Char × List Char)
  | [] => none
  | c :: cs =>
    if c = '0' then some (['0'], cs)
    else if c.isDigit then
      let p := takeDigits cs
      some (c :: p.1, p.2)
    else none

/-- Optional fraction part of a JSON number. -/
def parseFrac : List Char → Option (List Char × List Char)
  | '.' :: cs =>
    match takeDigits cs with
    | ([], _) => none
    | (ds, r) => some ('.' :: ds, r)
  | cs => some ([], cs)

/-- Optional exponent part of a JSON number. -/
def parseExp : List Char → Option (List Char × List Char)
  | [] => some ([], [])
  | c :: cs =>
    if c = 'e' || c = 'E' then
      let p : List Char × List Char :=
        match cs with
        | '+' :: r => (['+'], r)
        | '-' :: r => (['-'], r)
        | r => ([], r)
      match takeDigits p.2 with
      | ([], _) => none
      | (ds, r) => some (c :: (p.1 ++ ds), r)
    else some ([], c :: cs)

/-- Lex a JSON number, keeping its lexeme. -/
def parseNumberLexeme (cs : List Char) : Option (String × List Char) :=
  let q : List Char × List Char :=
    match cs with
    | '-' :: r => (['-'], r)
    | r => ([], r)
  match parseIntPart q.2 with
  | none => none
  | some (ip, r1) =>
    match parseFrac r1 with
    | none => none
    | some (fp, r2) =>
      match parseExp r2 with
      | none => none
      | some (ep, r3) => some (String.mk (q.1 ++ ip ++ fp ++ ep), r3)

/-- Match an exact literal suffix such as the tail of null, true, false. -/
def stripLit : List Char → List Char → Option (List Char)
  | [], cs => some cs
  | l :: ls, c :: cs => if c = l then stripLit ls cs else none
  | _ :: _, [] => none

mutual

/-- Parse one JSON value (fueled). -/
def parseValue : Nat → List Char → Option (JsValue × List Char)
  | 0, _ => none
  | fuel + 1, cs =>
    match skipWs cs with
    | [] => none
    | '"' :: rest =>
      match parseStringBody rest with
      | some (s, r) => some (JsValue.str s, r)
      | none => none
    | '\x7b' :: rest =>
      match skipWs rest with
      | '\x7d' :: r => some (JsValue.obj [], r)
      | cs2 =>
        match parseMembers fuel cs2 with
        | some (fs, r) => some (JsValue.obj fs, r)
        | none => none
    | '[' :: rest =>
      match skipWs rest with
      | ']' :: r => some (JsValue.arr [], r)
      | cs2 =>
        match parseElems fuel cs2 with
        | some (vs, r) => some (JsValue.arr vs, r)
        | none => none
    | 'n' :: rest =>
      match stripLit ['u', 'l', 'l'] rest with
      | some r => some (JsValue.null, r)
      | none => none
    | 't' :: rest =>
      match stripLit ['r', 'u', 'e'] rest with
      | some r => some (JsValue.bool true, r)
      | none => none
    | 'f' :: rest =>
      match stripLit ['a', 'l', 's', 'e'] rest with
      | some r => some (JsValue.bool false, r)
      | none => none
    | cs1 =>
      match parseNumberLexeme cs1 with
      | some (lex, r) => some (JsValue.num lex, r)
      | none => none

/-- Parse one or more key-value members of a JSON object (fueled); the input
starts at the first member, whitespace already skipped. -/
def parseMembers : Nat → List Char → Option (List (String × JsValue) × List Char)
  | 0, _ => none
  | fuel + 1, cs =>
    match cs with
    | '"' :: rest =>
      match parseStringBody rest with
      | none => none
      | some (key, r1) =>
        match skipWs r1 with
        | ':' :: r2 =>
          match parseValue fuel r2 with
          | none => none
          | some (v, r3) =>
            match skipWs r3 with
            | ',' :: r4 =>
              match parseMembers fuel (skipWs r4) with
              | some (fs, r5) => some ((key, v) :: fs, r5)
              | none => none
            | '\x7d' :: r4 => some ([(key, v)], r4)
            | _ => none
        | _ => none
    | _ => none

/-- Parse one or more elements of a JSON array (fueled). -/
def parseElems : Nat → List Char → Option (List JsValue × List Char)
  | 0, _ => none
  | fuel + 1, cs =>
    match parseValue fuel cs with
    | none => none
    | some (v, r1) =>
      match skipWs r1 with
      | ',' :: r2 =>
        match parseElems fuel r2 with
        | some (vs, r) => some (v :: vs, r)
        | none => none
      | ']' :: r2 => some ([v], r2)
      | _ => none

end

/-- Characters removed by the JavaScript builtin String.prototype.trim:
ASCII whitespace plus the no-break space (wider Unicode space classes are
also trimmed by the builtin; they do not occur in any input considered
here). -/
def isTrimWs (c : Char) : Bool :=
  c = ' ' || c = '\t' || c = '\n' || c = '\r' || c = Char.ofNat 11 ||
    c = Char.ofNat 12 || c = Char.ofNat 160

/-- Model of the platform builtin String.prototype.trim: drop leading and
trailing whitespace. -/
def jsTrim (s : String) : String :=
  String.mk (((s.toList.dropWhile isTrimWs).reverse.dropWhile isTrimWs).reverse)

/-- Model of the platform builtin JSON.parse: parse a whole string as one
JSON value; any leftover non-whitespace input is a syntax error. -/
def jsonParse (s : String) : Except String JsValue :=
  match parseValue (s.length + 1) s.toList with
  | none => Except.error "SyntaxError: unexpected token in JSON"
  | some (v, rest) =>
    if skipWs rest = [] then Except.ok v
    else Except.error "SyntaxError: unexpected trailing characters in JSON"

/-- True when the object field list has a string-valued field named k.
JavaScript keeps the last duplicate key, so the last binding decides. -/
def hasStringField (fields : List (String × JsValue)) (k : String) : Bool :=
  match fields.reverse.find? (fun p => p.1 = k) with
  | some (_, JsValue.str _) => true
  | _ => false

/-- Modelled from the spec: the required response shape of §4.3 and §6, a
JSON object with required string fields title and content.  The source code
never checks this shape after parsing; this definition exists to compare the
parse result against the shape the spec demands. -/
def specRequiredShape (v : JsValue) : Bool :=
  match v with
  | JsValue.obj fields => hasStringField fields "title" && hasStringField fields "content"
  | _ => false

/- ======================= src/services/geminiService.ts ======================= -/

/-- The GoogleGenAI client object constructed at module load
(geminiService.ts line 8). -/
structure GoogleGenAI where
  apiKey : String
deriving DecidableEq, Repr

/-- Module-level initialization of geminiService.ts (lines 4-8): importing
the module throws when process.env.API_KEY is JavaScript-falsy (the variable
is unset, or set to the empty string); otherwise the client is constructed
with that key.  The environment variable is modelled as an Option String,
none meaning unset. -/
def geminiModuleInit (apiKeyEnv : Option String) : Except String GoogleGenAI :=
  match apiKeyEnv with
  | none => Except.error "API_KEY environment variable not set"
  | some k =>
    if k = "" then Except.error "API_KEY environment variable not set"
    else Except.ok ⟨k⟩

/-- The fixed instruction text sent with every transcription request
(geminiService.ts lines 33-39), kept abstractly as the source literal is
presentation content; no claim inspects it. -/
def transcribeInstruction : String :=
  "Transcribe the following audio. Your primary goal is to create a clean, highly readable transcript."

/-- The reformat prompt construction (geminiService.ts lines 55-63): a
template embedding the format, the style and the original text. -/
def mkReformatPrompt (originalText format style : String) : String :=
  "Reformat the following text into a \"" ++ format ++ "\" with a \"" ++ style ++
    "\" tone. Generate a new, appropriate title for the reformatted content. Original Text: --- " ++
    originalText ++ " ---"

/-- transcribeAudio (geminiService.ts lines 25-52).  The remote call
ai.models.generateContent is modelled by an oracle argument: either the call
itself fails, or it yields the response text.  On success the code trims the
text and runs JSON.parse on it, returning the parsed value unvalidated (the
TypeScript cast as Transcription checks nothing at runtime). -/
def transcribeAudio (ai : GoogleGenAI) (base64Audio : String) (mimeType : String)
    (serviceCall : Except Unit String) : Except String JsValue :=
  match serviceCall with
  | Except.error _ => Except.error "service call failed"
  | Except.ok text => jsonParse (jsTrim text)

/-- reformatText (geminiService.ts lines 54-77).  Same response handling as
transcribeAudio: trim then JSON.parse, no schema validation. -/
def reformatText (ai : GoogleGenAI) (originalText : String) (format : String) (style : String)
    (serviceCall : Except Unit String) : Except String JsValue :=
  match serviceCall with
  | Except.error _ => Except.error "service call failed"
  | Except.ok text => jsonParse (jsTrim text)

/- ======================= src/unnamed/part_001 (RecordingPane) =======================

The recording-session component.  Its React state (recordingState,
elapsedTime, audioLevel, audioBlob) and refs (audioChunksRef, the timer
interval, the media recorder) become fields of PaneState.  Platform pieces
are modelled explicitly:

  * Date.now() becomes the field now (milliseconds), advanced by tick
    events; setInterval becomes the pair timerActive and timerStart, with a
    tick event recomputing elapsedTime exactly as the interval callback does
    (startTimer, lines 78-83).
  * MediaRecorder: chunks delivered by ondataavailable are opaque strings
    tagged with the mime type the recorder actually emits (the recorder is
    constructed without a mimeType option, line 53, so the platform picks
    it); the onstop callback (lines 64-69) wraps the chunks in a Blob whose
    declared type is the constant audio/webm.  The recorder flushes its
    buffered data when stop() is called, and onstop is delivered at the stop
    transition.
  * getUserMedia success or failure is an oracle argument of the record
    event (deviceOk).

Two ghost fields instrument the model without affecting behaviour:
artifactsProduced collects every Blob created by the onstop callback, and
sentBlobs collects every Blob handed to the onSend prop by handleSend. -/

/-- A Blob as used by the pane: its parts and its declared type field. -/
structure Blob where
  parts : List String
  blobType : String
deriving DecidableEq, Repr

/-- State of the RecordingPane component plus its modelled platform pieces. -/
structure PaneState where
  recordingState : RecordingState
  elapsedTime : Nat
  audioLevel : Nat
  audioBlob : Option Blob
  audioChunks : List String
  recorderMime : String
  timerActive : Bool
  timerStart : Int
  now : Int
  artifactsProduced : List Blob
  sentBlobs : List Blob
deriving DecidableEq, Repr

/-- Initial component state (lines 11-14): Idle, elapsed 0, no blob. -/
def initPane : PaneState :=
  { recordingState := RecordingState.Idle
    elapsedTime := 0
    audioLevel := 0
    audioBlob := none
    audioChunks := []
    recorderMime := ""
    timerActive := false
    timerStart := 0
    now := 0
    artifactsProduced := []
    sentBlobs := [] }

/-- startTimer (lines 78-83): startTime is Date.now() minus the closure
value of elapsedTime in milliseconds, and the interval is armed.  The
elapsed argument is the value of the elapsedTime state variable captured by
the closure that calls startTimer. -/
def startTimer (elapsed : Nat) (s : PaneState) : PaneState :=
  { s with timerActive := true, timerStart := s.now - (elapsed : Int) * 1000 }

/-- One firing of the interval callback (line 81) after dt milliseconds of
real time: elapsedTime := Math.floor((Date.now() - startTime) / 1000).
When the interval is not armed, time passes but nothing fires. -/
def tickTimer (dt : Nat) (s : PaneState) : PaneState :=
  let n := s.now + (dt : Int)
  if s.timerActive then
    { s with now := n, elapsedTime := ((n - s.timerStart) / 1000).toNat }
  else { s with now := n }

/-- handleRecord (lines 85-103).  From Paused it resumes the recorder and
the timer; otherwise it clears the blob and the chunk buffer, opens the
device (the deviceOk oracle models getUserMedia success), and on success
starts recording with elapsedTime reset to 0.  Note the source calls
setElapsedTime(0) and then startTimer(); startTimer reads the elapsedTime
captured by the render closure, that is, the value at handler entry, not the
freshly scheduled 0.  recMime is the mime type the platform recorder
emits for its chunks. -/
def handleRecord (deviceOk : Bool) (recMime : String) (s : PaneState) : PaneState :=
  if s.recordingState = RecordingState.Paused then
    startTimer s.elapsedTime { s with recordingState := RecordingState.Recording }
  else
    let s1 := { s with audioBlob := none, audioChunks := [] }
    if deviceOk then
      let s2 := { s1 with recordingState := RecordingState.Recording,
                          elapsedTime := 0, recorderMime := recMime }
      startTimer s.elapsedTime s2
    else s1

/-- handlePause (lines 105-110): pause the recorder, clear the interval and
the animation frame, set state Paused.  elapsedTime and audioLevel are left
as they are (frozen). -/
def handlePause (s : PaneState) : PaneState :=
  { s with timerActive := false, recordingState := RecordingState.Paused }

/-- handleStop (lines 112-118) together with the recorder callbacks it
triggers (lines 60-69): the recorder flushes its buffered data as a final
chunk carrying the recorder mime, onstop wraps all chunks into a Blob whose
declared type is the constant audio/webm and empties the chunk buffer, and
the handler sets state Stopped, clears the interval and zeroes the level. -/
def handleStop (s : PaneState) : PaneState :=
  let blob : Blob := ⟨s.audioChunks ++ [s.recorderMime], "audio/webm"⟩
  { s with recordingState := RecordingState.Stopped
           timerActive := false
           audioLevel := 0
           audioBlob := some blob
           audioChunks := []
           artifactsProduced := s.artifactsProduced ++ [blob] }

/-- handleCancel (lines 120-127): release everything, back to Idle with
elapsed time, level, blob and chunks reset. -/
def handleCancel (s : PaneState) : PaneState :=
  { s with recordingState := RecordingState.Idle
           timerActive := false
           elapsedTime := 0
           audioLevel := 0
           audioBlob := none
           audioChunks := [] }

/-- handleSend (lines 129-136): when a blob is ready, hand it to onSend
(recorded in the sentBlobs ghost), return to Idle and reset. -/
def handleSend (s : PaneState) : PaneState :=
  match s.audioBlob with
  | none => s
  | some b =>
    { s with sentBlobs := s.sentBlobs ++ [b]
             recordingState := RecordingState.Idle
             audioBlob := none
             elapsedTime := 0 }

/-- canRecord (line 144). -/
def canRecord : RecordingState → Bool
  | RecordingState.Idle => true
  | RecordingState.Paused => true
  | _ => false

/-- canPause (line 145). -/
def canPause : RecordingState → Bool
  | RecordingState.Recording => true
  | _ => false

/-- canStop (line 146). -/
def canStop : RecordingState → Bool
  | RecordingState.Recording => true
  | RecordingState.Paused => true
  | _ => false

/-- canCancel (line 147). -/
def canCancel : RecordingState → Bool
  | RecordingState.Idle => false
  | RecordingState.Stopped => false
  | _ => true

/-- canSend (line 148). -/
def canSend : RecordingState → Bool
  | RecordingState.Stopped => true
  | _ => false

/-- Events deliverable to the pane: the five user events of §6, plus the
passage of time firing the interval callback. -/
inductive PaneEvent where
  | record (deviceOk : Bool) (recMime : String)
  | pause
  | stop
  | cancel
  | send
  | tick (dt : Nat)
deriving DecidableEq, Repr

/-- One step of the pane.  User events are delivered through the component
wiring of lines 170-207: the record and pause events share one button that
dispatches handleRecord when canRecord and handlePause otherwise, and every
button is disabled while isBusy or when its can-predicate is false, so a
click in a state where the guard fails is dropped without reaching the
handler. -/
def stepPane (isBusy : Bool) (s : PaneState) : PaneEvent → PaneState
  | PaneEvent.record ok mime =>
    if !isBusy && canRecord s.recordingState then handleRecord ok mime s else s
  | PaneEvent.pause =>
    if !isBusy && !canRecord s.recordingState && canPause s.recordingState then
      handlePause s
    else s
  | PaneEvent.stop =>
    if !isBusy && canStop s.recordingState then handleStop s else s
  | PaneEvent.cancel =>
    if !isBusy && canCancel s.recordingState then handleCancel s else s
  | PaneEvent.send =>
    if !isBusy && canSend s.recordingState then handleSend s else s
  | PaneEvent.tick dt => tickTimer dt s

/-- Pane states reachable from the initial component state. -/
inductive PaneReachable : PaneState → Prop where
  | init : PaneReachable initPane
  | step (b : Bool) (e : PaneEvent) {s : PaneState} :
      PaneReachable s → PaneReachable (stepPane b s e)

/-- Run a list of pane events from the initial state with the pane not busy. -/
def runPane (events : List PaneEvent) : PaneState :=
  events.foldl (fun s e => stepPane false s e) initPane

/-- Invariant of the pane maintained along every reachable state: the timer
is armed exactly while Recording; elapsed time is 0 in Idle; while the timer
is armed, elapsedTime agrees with the clock and startTime does not lie in
the future; and every blob the onstop callback built, stored, or handed to
onSend carries the declared type audio/webm. -/
def paneInv (s : PaneState) : Prop :=
  (s.timerActive = true ↔ s.recordingState = RecordingState.Recording) ∧
  (s.recordingState = RecordingState.Idle → s.elapsedTime = 0) ∧
  (s.timerActive = true →
    s.timerStart ≤ s.now ∧ s.elapsedTime = ((s.now - s.timerStart) / 1000).toNat) ∧
  (∀ b, s.audioBlob = some b → b.blobType = "audio/webm") ∧
  (∀ b, b ∈ s.sentBlobs → b.blobType = "audio/webm") ∧
  (∀ b, b ∈ s.artifactsProduced → b.blobType = "audio/webm")

/- ======================= src/unnamed/part_000 (App / SessionOrchestrator) =======================

The App component coordinates the pane output into service calls.  Its four
useState cells become the first four fields of AppState.  Each async handler
is split into the synchronous prefix that runs when the handler is invoked
(up to and including issuing the remote call) and a completion step that
runs when the awaited promise settles; a request in flight sits in a pending
list in between.  Completions are delivered oldest first.

Two closure-capture details of the source are modelled exactly:
  * handleSendAudio's finally block (line 29) writes the literal object with
    both flags false, not an update of the current flags;
  * handleReformat spreads the isLoading value captured when the handler was
    invoked, both when setting reformatting true (line 36) and in its
    finally block (line 47), so the completion step restores the
    transcription flag to its value at reformat start. -/

/-- The isLoading state cell (line 10). -/
structure LoadingState where
  transcription : Bool
  reformatting : Bool
deriving DecidableEq, Repr

/-- A transcription request in flight: the blob handed to onSend, base64
encoded by blobToBase64, and the mime type read from blob.type (lines
22-23). -/
structure TranscribeRequest where
  audio : Blob
  mimeType : String
deriving DecidableEq, Repr

/-- A reformat request in flight: the arguments passed to reformatText (line
41) and the isLoading value captured by the handler closure. -/
structure ReformatRequest where
  sourceText : String
  format : ReformatFormat
  style : ReformatStyle
  captured : LoadingState
deriving DecidableEq, Repr

/-- State of the App component (lines 10-13) plus the in-flight request
lists. -/
structure AppState where
  isLoading : LoadingState
  error : Option String
  transcriptionResult : Option Transcription
  reformattedResult : Option Transcription
  pendingTranscribe : List TranscribeRequest
  pendingReformat : List ReformatRequest
deriving DecidableEq, Repr

/-- Initial App state: not loading, no error, no results. -/
def initApp : AppState :=
  { isLoading := ⟨false, false⟩
    error := none
    transcriptionResult := none
    reformattedResult := none
    pendingTranscribe := []
    pendingReformat := [] }

/-- Synchronous prefix of handleSendAudio (lines 15-23): set the loading
flags, clear the error and both results, and issue the transcription call
with mimeType audioBlob.type.  No flag is consulted first. -/
def handleSendAudioStart (b : Blob) (s : AppState) : AppState :=
  { s with isLoading := ⟨true, false⟩
           error := none
           transcriptionResult := none
           reformattedResult := none
           pendingTranscribe := s.pendingTranscribe ++ [⟨b, b.blobType⟩] }

/-- Completion of handleSendAudio (lines 24-30): on success store the
result, on failure store the error message; the finally block then writes
both flags false. -/
def handleSendAudioSettle (outcome : Except Unit Transcription) (s : AppState) : AppState :=
  match s.pendingTranscribe with
  | [] => s
  | _ :: rest =>
    let s1 :=
      match outcome with
      | Except.ok t => { s with transcriptionResult := some t }
      | Except.error _ => { s with error := some "Failed to transcribe audio. Please try again." }
    { s1 with pendingTranscribe := rest, isLoading := ⟨false, false⟩ }

/-- Synchronous prefix of handleReformat (lines 33-41): return immediately
when no transcription result exists; otherwise set reformatting true by
spreading the captured isLoading, clear the error and the previous reformat
result, and issue the reformat call against the current transcription's
content. -/
def handleReformatStart (o : ReformatOptions) (s : AppState) : AppState :=
  match s.transcriptionResult with
  | none => s
  | some t =>
    { s with isLoading := { s.isLoading with reformatting := true }
             error := none
             reformattedResult := none
             pendingReformat :=
               s.pendingReformat ++ [⟨t.content, o.format, o.style, s.isLoading⟩] }

/-- Completion of handleReformat (lines 42-48): on success store the result,
on failure store the error message; the finally block spreads the isLoading
captured at handler start with reformatting false. -/
def handleReformatSettle (outcome : Except Unit Transcription) (s : AppState) : AppState :=
  match s.pendingReformat with
  | [] => s
  | r :: rest =>
    let s1 :=
      match outcome with
      | Except.ok t => { s with reformattedResult := some t }
      | Except.error _ => { s with error := some "Failed to reformat text. Please try again." }
    { s1 with pendingReformat := rest
              isLoading := { r.captured with reformatting := false } }

/-- handleClear (lines 51-56): clear both results, the error and both flags
unconditionally.  In-flight requests are not cancelled. -/
def handleClear (s : AppState) : AppState :=
  { s with transcriptionResult := none
           reformattedResult := none
           error := none
           isLoading := ⟨false, false⟩ }

/-- Events deliverable to the orchestrator: handler invocations and remote
completions. -/
inductive AppEvent where
  | sendAudio (b : Blob)
  | transcribeDone (outcome : Except Unit Transcription)
  | reformat (o : ReformatOptions)
  | reformatDone (outcome : Except Unit Transcription)
  | clear
deriving Repr

/-- One step of the orchestrator. -/
def stepApp (s : AppState) : AppEvent → AppState
  | AppEvent.sendAudio b => handleSendAudioStart b s
  | AppEvent.transcribeDone outcome => handleSendAudioSettle outcome s
  | AppEvent.reformat o => handleReformatStart o s
  | AppEvent.reformatDone outcome => handleReformatSettle outcome s
  | AppEvent.clear => handleClear s

/-- Run a list of orchestrator events from the initial state. -/
def runApp (events : List AppEvent) : AppState :=
  events.foldl (fun s e => stepApp s e) initApp

/- ======================= concrete fixtures shared by the theorems ======================= -/

/-- A concrete blob as handed to onSend. -/
def b0 : Blob := ⟨["data"], "audio/webm"⟩

/-- Concrete transcription results. -/
def t0 : Transcription := ⟨"T0", "C0"⟩

def t1 : Transcription := ⟨"T1", "C1"⟩

def r1 : Transcription := ⟨"R1", "B1"⟩

def r2 : Transcription := ⟨"R2", "B2"⟩

/-- Concrete reformat options. -/
def opts0 : ReformatOptions := ⟨ReformatFormat.email, ReformatStyle.formal⟩

/-- A concrete client, as built by a successful module initialization. -/
def ai0 : GoogleGenAI := ⟨"key"⟩

/-- A well-formed JSON response body that violates the required schema by
missing the content field. -/
def jsonMissingContent : String := "\x7b\"title\":\"T\"\x7d"

/-- App state with a stored transcription result and nothing in flight:
a send followed by a successful completion. -/
def appAfterFirstResult : AppState :=
  stepApp (stepApp initApp (AppEvent.sendAudio b0)) (AppEvent.transcribeDone (Except.ok t0))

/-- Pane state right after a recording was started. -/
def paneRecording : PaneState := stepPane false initPane (PaneEvent.record true "audio/mp4")

/-- Pane state paused after recording started. -/
def panePaused : PaneState := stepPane false paneRecording PaneEvent.pause

/-- Event sequence of the spec's §8 elapsed-time scenario: record, three
one-second ticks, pause, record again, two one-second ticks, stop. -/
def c6Events : List PaneEvent :=
  [PaneEvent.record true "audio/mp4", PaneEvent.tick 1000, PaneEvent.tick 1000,
   PaneEvent.tick 1000, PaneEvent.pause, PaneEvent.record true "audio/mp4",
   PaneEvent.tick 1000, PaneEvent.tick 1000, PaneEvent.stop]

/-- Kinds of pane events, for matching steps against the spec's transition
table. -/
inductive EventKind where
  | record
  | pause
  | stop
  | cancel
  | send
  | tick
deriving DecidableEq, Repr

/-- Kind of a pane event. -/
def kindOf : PaneEvent → EventKind
  | PaneEvent.record _ _ => EventKind.record
  | PaneEvent.pause => EventKind.pause
  | PaneEvent.stop => EventKind.stop
  | PaneEvent.cancel => EventKind.cancel
  | PaneEvent.send => EventKind.send
  | PaneEvent.tick _ => EventKind.tick

/-- Modelled from the spec: the transition table of §4.2.  True exactly for
the from-state, event, to-state triples the table lists. -/
def specTableAllows : RecordingState → EventKind → RecordingState → Bool
  | RecordingState.Idle, EventKind.record, RecordingState.Recording => true
  | RecordingState.Paused, EventKind.record, RecordingState.Recording => true
  | RecordingState.Recording, EventKind.pause, RecordingState.Paused => true
  | RecordingState.Recording, EventKind.stop, RecordingState.Stopped => true
  | RecordingState.Paused, EventKind.stop, RecordingState.Stopped => true
  | RecordingState.Recording, EventKind.cancel, RecordingState.Idle => true
  | RecordingState.Paused, EventKind.cancel, RecordingState.Idle => true
  | RecordingState.Stopped, EventKind.send, RecordingState.Idle => true
  | _, _, _ => false

/- ======================= helper lemmas ======================= -/

theorem paneInv_init : paneInv initPane := by
  refine ⟨by simp [initPane], by simp [initPane], by simp [initPane], ?_, ?_, ?_⟩ <;>
    intro b hb <;> simp [initPane] at hb

theorem paneInv_handlePause (s : PaneState) (h : paneInv s) : paneInv (handlePause s) := by
  obtain ⟨rs, et, al, ab, ac, rm, ta, ts, n, ap, sb⟩ := s
  obtain ⟨h1, h2, h3, h4, h5, h6⟩ := h
  refine ⟨by simp [handlePause], by simp [handlePause], by simp [handlePause], ?_, ?_, ?_⟩
  · intro b hb
    simp only [handlePause] at hb
    exact h4 b hb
  · intro b hb
    simp only [handlePause] at hb
    exact h5 b hb
  · intro b hb
    simp only [handlePause] at hb
    exact h6 b hb

theorem paneInv_handleStop (s : PaneState) (h : paneInv s) : paneInv (handleStop s) := by
  obtain ⟨rs, et, al, ab, ac, rm, ta, ts, n, ap, sb⟩ := s
  obtain ⟨h1, h2, h3, h4, h5, h6⟩ := h
  refine ⟨by simp [handleStop], by simp [handleStop], by simp [handleStop], ?_, ?_, ?_⟩
  · intro b hb
    simp only [handleStop, Option.some.injEq] at hb
    subst hb
    rfl
  · intro b hb
    simp only [handleStop] at hb
    exact h5 b hb
  · intro b hb
    simp only [handleStop, List.mem_append, List.mem_singleton] at hb
    rcases hb with hb | hb
    · exact h6 b hb
    · subst hb
      rfl

theorem paneInv_handleCancel (s : PaneState) (h : paneInv s) : paneInv (handleCancel s) := by
  obtain ⟨rs, et, al, ab, ac, rm, ta, ts, n, ap, sb⟩ := s
  obtain ⟨h1, h2, h3, h4, h5, h6⟩ := h
  refine ⟨by simp [handleCancel], by simp [handleCancel], by simp [handleCancel], ?_, ?_, ?_⟩
  · intro b hb
    simp only [handleCancel] at hb
    exact absurd hb (by simp)
  · intro b hb
    simp only [handleCancel] at hb
    exact h5 b hb
  · intro b hb
    simp only [handleCancel] at hb
    exact h6 b hb

theorem paneInv_handleSend (s : PaneState) (h : paneInv s)
    (hg : canSend s.recordingState = true) : paneInv (handleSend s) := by
  obtain ⟨rs, et, al, ab, ac, rm, ta, ts, n, ap, sb⟩ := s
  obtain ⟨h1, h2, h3, h4, h5, h6⟩ := h
  have hst : rs = RecordingState.Stopped := by
    revert hg
    unfold canSend
    cases rs <;> simp
  subst hst
  have hta : ta = false := by
    cases hta : ta
    · rfl
    · exact absurd (h1.mp hta) (by simp)
  subst hta
  cases ab with
  | none => exact ⟨h1, h2, h3, h4, h5, h6⟩
  | some b =>
    refine ⟨by simp [handleSend], by simp [handleSend], by simp [handleSend], ?_, ?_, ?_⟩
    · intro b' hb'
      simp [handleSend] at hb'
    · intro b' hb'
      simp only [handleSend, List.mem_append, List.mem_singleton] at hb'
      rcases hb' with hb' | hb'
      · exact h5 b' hb'
      · subst hb'
        exact h4 _ rfl
    · intro b' hb'
      simp only [handleSend] at hb'
      exact h6 b' hb'

theorem paneInv_handleRecord (ok : Bool) (mime : String) (s : PaneState) (h : paneInv s)
    (hg : canRecord s.recordingState = true) : paneInv (handleRecord ok mime s) := by
  obtain ⟨rs, et, al, ab, ac, rm, ta, ts, n, ap, sb⟩ := s
  obtain ⟨h1, h2, h3, h4, h5, h6⟩ := h
  cases rs with
  | Recording => simp [canRecord] at hg
  | Stopped => simp [canRecord] at hg
  | Idle =>
    have he : et = 0 := h2 rfl
    subst he
    cases ok with
    | false =>
      refine ⟨by simpa [handleRecord] using h1, by simpa [handleRecord] using h2,
        by simpa [handleRecord] using h3, ?_, ?_, ?_⟩
      · intro b hb
        simp [handleRecord] at hb
      · intro b hb
        simp only [handleRecord] at hb
        exact h5 b hb
      · intro b hb
        simp only [handleRecord] at hb
        exact h6 b hb
    | true =>
      refine ⟨by simp [handleRecord, startTimer], by simp [handleRecord, startTimer], ?_, ?_, ?_, ?_⟩
      · intro _
        simp [handleRecord, startTimer]
      · intro b hb
        simp [handleRecord, startTimer] at hb
      · intro b hb
        simp only [handleRecord, startTimer] at hb
        exact h5 b hb
      · intro b hb
        simp only [handleRecord, startTimer] at hb
        exact h6 b hb
  | Paused =>
    refine ⟨by simp [handleRecord, startTimer], by simp [handleRecord, startTimer], ?_, ?_, ?_, ?_⟩
    · intro _
      simp [handleRecord, startTimer]
    · intro b hb
      simp only [handleRecord, startTimer] at hb
      exact h4 b hb
    · intro b hb
      simp only [handleRecord, startTimer] at hb
      exact h5 b hb
    · intro b hb
      simp only [handleRecord, startTimer] at hb
      exact h6 b hb

theorem paneInv_tickTimer (dt : Nat) (s : PaneState) (h : paneInv s) :
    paneInv (tickTimer dt s) := by
  obtain ⟨rs, et, al, ab, ac, rm, ta, ts, n, ap, sb⟩ := s
  obtain ⟨h1, h2, h3, h4, h5, h6⟩ := h
  cases ta with
  | false =>
    refine ⟨by simpa [tickTimer] using h1, by simpa [tickTimer] using h2,
      by simp [tickTimer], ?_, ?_, ?_⟩
    · intro b hb
      simp only [tickTimer] at hb
      exact h4 b (by simpa using hb)
    · intro b hb
      simp only [tickTimer] at hb
      exact h5 b (by simpa using hb)
    · intro b hb
      simp only [tickTimer] at hb
      exact h6 b (by simpa using hb)
  | true =>
    have hrec : rs = RecordingState.Recording := h1.mp rfl
    subst hrec
    obtain ⟨hts, hel⟩ := h3 rfl
    dsimp only at hts hel
    refine ⟨by simp [tickTimer], by simp [tickTimer], ?_, ?_, ?_, ?_⟩
    · intro _
      simp [tickTimer]
      omega
    · intro b hb
      simp only [tickTimer] at hb
      exact h4 b (by simpa using hb)
    · intro b hb
      simp only [tickTimer] at hb
      exact h5 b (by simpa using hb)
    · intro b hb
      simp only [tickTimer] at hb
      exact h6 b (by simpa using hb)

theorem paneInv_step (busy : Bool) (e : PaneEvent) (s : PaneState) (h : paneInv s) :
    paneInv (stepPane busy s e) := by
  cases e with
  | record ok mime =>
    simp only [stepPane]
    split
    · rename_i hg
      simp only [Bool.and_eq_true] at hg
      exact paneInv_handleRecord ok mime s h hg.2
    · exact h
  | pause =>
    simp only [stepPane]
    split
    · exact paneInv_handlePause s h
    · exact h
  | stop =>
    simp only [stepPane]
    split
    · exact paneInv_handleStop s h
    · exact h
  | cancel =>
    simp only [stepPane]
    split
    · exact paneInv_handleCancel s h
    · exact h
  | send =>
    simp only [stepPane]
    split
    · rename_i hg
      simp only [Bool.and_eq_true] at hg
      exact paneInv_handleSend s h hg.2
    · exact h
  | tick dt =>
    exact paneInv_tickTimer dt s h

theorem paneInv_reachable {s : PaneState} (h : PaneReachable s) : paneInv s := by
  induction h with
  | init => exact paneInv_init
  | step b e hs ih => exact paneInv_step b e _ ih

/- ======================= claim theorems ======================= -/

/-- Claim C5: for every delivered record, pause, stop, cancel or send event
(and any timer tick), a pane step either leaves RecordingState unchanged or
takes a transition listed in the transition table of spec §4.2; in
particular a pause or stop event received in state Idle or Stopped is
dropped by the component's button wiring (the buttons are disabled there),
causing no state change at all. -/
theorem recordingState_follows_spec_table (busy : Bool) (s : PaneState) (e : PaneEvent) :
    ((stepPane busy s e).recordingState = s.recordingState ∨
      specTableAllows s.recordingState (kindOf e) (stepPane busy s e).recordingState = true) ∧
    ((s.recordingState = RecordingState.Idle ∨ s.recordingState = RecordingState.Stopped) →
      stepPane busy s PaneEvent.pause = s ∧ stepPane busy s PaneEvent.stop = s) := by
  obtain ⟨rs, et, al, ab, ac, rm, ta, ts, n, ap, sb⟩ := s
  constructor
  · cases e with
    | record ok mime =>
      simp only [stepPane]
      split
      · cases rs <;> cases ok <;>
          simp_all [handleRecord, startTimer, canRecord, specTableAllows, kindOf]
      · left
        rfl
    | pause =>
      simp only [stepPane]
      split
      · cases rs <;>
          simp_all [handlePause, canRecord, canPause, specTableAllows, kindOf]
      · left
        rfl
    | stop =>
      simp only [stepPane]
      split
      · cases rs <;> simp_all [handleStop, canStop, specTableAllows, kindOf]
      · left
        rfl
    | cancel =>
      simp only [stepPane]
      split
      · cases rs <;> simp_all [handleCancel, canCancel, specTableAllows, kindOf]
      · left
        rfl
    | send =>
      simp only [stepPane]
      split
      · cases ab <;> cases rs <;>
          simp_all [handleSend, canSend, specTableAllows, kindOf]
      · left
        rfl
    | tick dt =>
      left
      simp [stepPane, tickTimer]
      split <;> rfl
  · intro hrs
    rcases hrs with hrs | hrs <;> subst hrs <;>
      exact ⟨by simp [stepPane, canRecord, canPause], by simp [stepPane, canStop]⟩

/-- Claim C5 witness: a pause and a stop delivered in the initial Idle state
change nothing. -/
theorem recordingState_follows_spec_table_witness :
    stepPane false initPane PaneEvent.pause = initPane ∧
    stepPane false initPane PaneEvent.stop = initPane :=
  (recordingState_follows_spec_table false initPane PaneEvent.pause).2 (Or.inl rfl)

/-- Claim C6: the spec §8 scenario record, three one-second ticks, pause,
record, two one-second ticks, stop ends with ElapsedTime 5 and exactly one
AudioArtifact produced; moreover from any reachable state a tick while
Recording never decreases ElapsedTime, and a tick while Paused leaves it
unchanged (the interval is not armed, so resuming continues from the frozen
value). -/
theorem elapsedTime_clock_behavior :
    ((runPane c6Events).elapsedTime = 5 ∧ (runPane c6Events).artifactsProduced.length = 1) ∧
    (∀ (busy : Bool) (s : PaneState) (dt : Nat), PaneReachable s →
      s.recordingState = RecordingState.Recording →
      s.elapsedTime ≤ (stepPane busy s (PaneEvent.tick dt)).elapsedTime) ∧
    (∀ (busy : Bool) (s : PaneState) (dt : Nat), PaneReachable s →
      s.recordingState = RecordingState.Paused →
      (stepPane busy s (PaneEvent.tick dt)).elapsedTime = s.elapsedTime) := by
  refine ⟨⟨by decide, by decide⟩, ?_, ?_⟩
  · intro busy s dt hr hrec
    obtain ⟨h1, h2, h3, h4, h5, h6⟩ := paneInv_reachable hr
    have hta : s.timerActive = true := h1.mpr hrec
    obtain ⟨hts, hel⟩ := h3 hta
    simp [stepPane, tickTimer, hta]
    omega
  · intro busy s dt hr hpau
    obtain ⟨h1, h2, h3, h4, h5, h6⟩ := paneInv_reachable hr
    have hta : s.timerActive = false := by
      cases h : s.timerActive
      · rfl
      · exact absurd (h1.mp h) (by simp [hpau])
    simp [stepPane, tickTimer, hta]

/-- Claim C6 witness: a tick in a concrete reachable Recording state does
not decrease the elapsed time, and a tick in a concrete reachable Paused
state leaves it unchanged. -/
theorem elapsedTime_clock_behavior_witness :
    paneRecording.elapsedTime ≤ (stepPane false paneRecording (PaneEvent.tick 1000)).elapsedTime ∧
    (stepPane false panePaused (PaneEvent.tick 1000)).elapsedTime = panePaused.elapsedTime := by
  constructor
  · exact elapsedTime_clock_behavior.2.1 false paneRecording 1000
      (PaneReachable.step false (PaneEvent.record true "audio/mp4") PaneReachable.init)
      (by decide)
  · exact elapsedTime_clock_behavior.2.2 false panePaused 1000
      (PaneReachable.step false PaneEvent.pause
        (PaneReachable.step false (PaneEvent.record true "audio/mp4") PaneReachable.init))
      (by decide)

/-- Claim C7: a reformat request while transcriptionResult is null returns
before any setState call and issues no remote call: the orchestrator state,
including both pending-request lists, is exactly unchanged. -/
theorem reformat_noop_without_transcription (s : AppState) (o : ReformatOptions)
    (h : s.transcriptionResult = none) : stepApp s (AppEvent.reformat o) = s := by
  simp [stepApp, handleReformatStart, h]

/-- Claim C7 witness: a reformat in the initial state changes nothing. -/
theorem reformat_noop_without_transcription_witness :
    stepApp initApp (AppEvent.reformat opts0) = initApp :=
  reformat_noop_without_transcription initApp opts0 rfl

/-- Claim C8: every onReformat leaves transcriptionResult exactly as it was;
when a transcription exists it clears the stored reformat result (and the
error), and issues the remote request against the current transcription's
content; and after two successive successful reformat calls the second
result has fully replaced the first while the transcription result is still
the original one. -/
theorem reformat_replaces_only_reformat_result (s : AppState) (o : ReformatOptions) :
    ((stepApp s (AppEvent.reformat o)).transcriptionResult = s.transcriptionResult) ∧
    (∀ t, s.transcriptionResult = some t →
      (stepApp s (AppEvent.reformat o)).reformattedResult = none ∧
      (stepApp s (AppEvent.reformat o)).error = none ∧
      (stepApp s (AppEvent.reformat o)).pendingReformat =
        s.pendingReformat ++ [⟨t.content, o.format, o.style, s.isLoading⟩]) ∧
    (∀ t u1 u2, s.transcriptionResult = some t → s.pendingReformat = [] →
      (stepApp (stepApp s (AppEvent.reformat o))
        (AppEvent.reformatDone (Except.ok u1))).reformattedResult = some u1 ∧
      (stepApp (stepApp (stepApp (stepApp s (AppEvent.reformat o))
          (AppEvent.reformatDone (Except.ok u1))) (AppEvent.reformat o))
        (AppEvent.reformatDone (Except.ok u2))).reformattedResult = some u2 ∧
      (stepApp (stepApp (stepApp (stepApp s (AppEvent.reformat o))
          (AppEvent.reformatDone (Except.ok u1))) (AppEvent.reformat o))
        (AppEvent.reformatDone (Except.ok u2))).transcriptionResult = some t) := by
  refine ⟨?_, ?_, ?_⟩
  · cases h : s.transcriptionResult <;>
      simp [stepApp, handleReformatStart, h]
  · intro t ht
    simp [stepApp, handleReformatStart, ht]
  · intro t u1 u2 ht hp
    simp [stepApp, handleReformatStart, handleReformatSettle, ht, hp]

/-- Claim C8 witness: from a state holding transcription t0, a reformat
keeps t0, clears the reformat slot, and two successful reformats leave the
second result and still t0. -/
theorem reformat_replaces_only_reformat_result_witness :
    (stepApp appAfterFirstResult (AppEvent.reformat opts0)).transcriptionResult =
      appAfterFirstResult.transcriptionResult ∧
    (stepApp appAfterFirstResult (AppEvent.reformat opts0)).reformattedResult = none ∧
    (stepApp (stepApp (stepApp (stepApp appAfterFirstResult (AppEvent.reformat opts0))
        (AppEvent.reformatDone (Except.ok r1))) (AppEvent.reformat opts0))
      (AppEvent.reformatDone (Except.ok r2))).reformattedResult = some r2 := by
  refine ⟨(reformat_replaces_only_reformat_result appAfterFirstResult opts0).1,
    ((reformat_replaces_only_reformat_result appAfterFirstResult opts0).2.1 t0 (by decide)).1,
    ((reformat_replaces_only_reformat_result appAfterFirstResult opts0).2.2 t0 r1 r2
      (by decide) (by decide)).2.1⟩

/-- Claim C9: with API_KEY unset (or set but empty, equally falsy in the
source's truthiness test) the module initialization of the transcription
client fails before any operation exists, and any successfully constructed
client carries a nonempty key from the environment; transcribeAudio and
reformatText take the client built at initialization, so they are reachable
only behind a successful initialization. -/
theorem api_key_required_at_module_load :
    (geminiModuleInit none = Except.error "API_KEY environment variable not set") ∧
    (geminiModuleInit (some "") = Except.error "API_KEY environment variable not set") ∧
    (∀ (env : Option String) (g : GoogleGenAI), geminiModuleInit env = Except.ok g →
      ∃ k, env = some k ∧ k ≠ "" ∧ g.apiKey = k) := by
  refine ⟨rfl, by simp [geminiModuleInit], ?_⟩
  intro env g h
  cases env with
  | none => simp [geminiModuleInit] at h
  | some k =>
    by_cases hk : k = ""
    · simp [geminiModuleInit, hk] at h
    · refine ⟨k, rfl, hk, ?_⟩
      simp [geminiModuleInit, hk] at h
      rw [← h]

/-- Claim C9 witness: initialization with a concrete nonempty key yields a
client holding exactly that key. -/
theorem api_key_required_at_module_load_witness :
    ∃ k, (some "key" : Option String) = some k ∧ k ≠ "" ∧ ai0.apiKey = k :=
  api_key_required_at_module_load.2.2 (some "key") ai0 rfl

/-- Claim C10: the Blob built by the recorder's onstop callback always
carries the constant declared type audio/webm, whatever mime type the
platform recorder actually emitted for its chunks; along every reachable
pane run, every artifact produced and every blob handed to onSend carries
that constant; and the orchestrator propagates blob.type as the mime type of
the transcription request it issues. -/
theorem stop_artifact_mediaType_webm :
    (∀ (s : PaneState) (b : Blob), (handleStop s).audioBlob = some b →
      b.blobType = "audio/webm") ∧
    (∀ (s : PaneState), PaneReachable s →
      ∀ b, b ∈ s.artifactsProduced → b.blobType = "audio/webm") ∧
    (∀ (s : PaneState), PaneReachable s →
      ∀ b, b ∈ s.sentBlobs → b.blobType = "audio/webm") ∧
    (∀ (st : AppState) (b : Blob),
      (stepApp st (AppEvent.sendAudio b)).pendingTranscribe =
        st.pendingTranscribe ++ [⟨b, b.blobType⟩]) := by
  refine ⟨?_, ?_, ?_, ?_⟩
  · intro s b hb
    obtain ⟨rs, et, al, ab, ac, rm, ta, ts, n, ap, sb⟩ := s
    simp only [handleStop, Option.some.injEq] at hb
    subst hb
    rfl
  · intro s hr b hb
    exact (paneInv_reachable hr).2.2.2.2.2 b hb
  · intro s hr b hb
    exact (paneInv_reachable hr).2.2.2.2.1 b hb
  · intro st b
    simp [stepApp, handleSendAudioStart]

/-- Claim C10 witness: the artifact of a concrete stop after recording with
a recorder that emitted audio/mp4 chunks is declared audio/webm, and a
concrete send issues a request carrying the blob's type. -/
theorem stop_artifact_mediaType_webm_witness :
    (Blob.mk ["audio/mp4"] "audio/webm").blobType = "audio/webm" ∧
    (stepApp initApp (AppEvent.sendAudio b0)).pendingTranscribe =
      initApp.pendingTranscribe ++ [⟨b0, b0.blobType⟩] := by
  constructor
  · exact stop_artifact_mediaType_webm.2.1 (stepPane false paneRecording PaneEvent.stop)
      (PaneReachable.step false PaneEvent.stop
        (PaneReachable.step false (PaneEvent.record true "audio/mp4") PaneReachable.init))
      (Blob.mk ["audio/mp4"] "audio/webm") (by decide)
  · exact stop_artifact_mediaType_webm.2.2.2 initApp b0

/-- Claim C1 counterexample: handleSendAudio performs no single-flight
check.  From the initial state one send leaves the transcribing flag true,
and a second send issued in that state starts a second remote call: two
transcription requests are then in flight at once. -/
theorem second_send_starts_second_call :
    (stepApp initApp (AppEvent.sendAudio b0)).isLoading.transcription = true ∧
    (stepApp (stepApp initApp (AppEvent.sendAudio b0))
      (AppEvent.sendAudio b0)).pendingTranscribe.length = 2 := by
  decide

/-- Claim C1 amended: the orchestrator handlers never consult the busy
flags.  Every onSend starts a transcription call unconditionally, and every
onReformat with a transcription present starts a reformat call
unconditionally, whatever the flags say; single-flight is not enforced by
the orchestrator itself (only the presentation layer's disabled buttons
limit concurrent requests). -/
theorem orchestrator_has_no_single_flight_guard (s : AppState) (b : Blob)
    (o : ReformatOptions) :
    ((stepApp s (AppEvent.sendAudio b)).pendingTranscribe.length =
      s.pendingTranscribe.length + 1) ∧
    (∀ t, s.transcriptionResult = some t →
      (stepApp s (AppEvent.reformat o)).pendingReformat.length =
        s.pendingReformat.length + 1) := by
  constructor
  · simp [stepApp, handleSendAudioStart]
  · intro t ht
    simp [stepApp, handleReformatStart, ht]

/-- Claim C1 amended witness: concrete instances of both conjuncts. -/
theorem orchestrator_has_no_single_flight_guard_witness :
    ((stepApp appAfterFirstResult (AppEvent.sendAudio b0)).pendingTranscribe.length =
      appAfterFirstResult.pendingTranscribe.length + 1) ∧
    ((stepApp appAfterFirstResult (AppEvent.reformat opts0)).pendingReformat.length =
      appAfterFirstResult.pendingReformat.length + 1) :=
  ⟨(orchestrator_has_no_single_flight_guard appAfterFirstResult b0 opts0).1,
    (orchestrator_has_no_single_flight_guard appAfterFirstResult b0 opts0).2 t0 (by decide)⟩

/-- Claim C2 counterexample: there is no stale-response guard.  After a send
and then a clear (which resets the session but cancels nothing), the
response of the in-flight call is still stored into transcriptionResult when
it arrives. -/
theorem late_response_stored_after_clear :
    ((stepApp (stepApp initApp (AppEvent.sendAudio b0))
      AppEvent.clear).transcriptionResult = none) ∧
    ((stepApp (stepApp (stepApp initApp (AppEvent.sendAudio b0)) AppEvent.clear)
      (AppEvent.transcribeDone (Except.ok t0))).transcriptionResult = some t0) := by
  decide

/-- Claim C2 amended: whenever a transcription (or reformat) response
resolves while its request is still pending, its value is stored into
transcriptionResult (or reformattedResult) unconditionally: the orchestrator
keeps no record of the originating artifact and never ignores a late
response, even after onClear or a replacing send. -/
theorem pending_response_always_stored :
    (∀ (s : AppState) (req : TranscribeRequest) (rest : List TranscribeRequest)
      (t : Transcription), s.pendingTranscribe = req :: rest →
      (stepApp s (AppEvent.transcribeDone (Except.ok t))).transcriptionResult = some t) ∧
    (∀ (s : AppState) (r : ReformatRequest) (rest : List ReformatRequest)
      (t : Transcription), s.pendingReformat = r :: rest →
      (stepApp s (AppEvent.reformatDone (Except.ok t))).reformattedResult = some t) := by
  constructor
  · intro s req rest t h
    simp [stepApp, handleSendAudioSettle, h]
  · intro s r rest t h
    simp [stepApp, handleReformatSettle, h]

/-- Claim C2 amended witness: the late response after a clear is stored. -/
theorem pending_response_always_stored_witness :
    (stepApp (stepApp (stepApp initApp (AppEvent.sendAudio b0)) AppEvent.clear)
      (AppEvent.transcribeDone (Except.ok t1))).transcriptionResult = some t1 :=
  pending_response_always_stored.1
    (stepApp (stepApp initApp (AppEvent.sendAudio b0)) AppEvent.clear)
    ⟨b0, b0.blobType⟩ [] t1 (by decide)

/-- Claim C3 counterexample: a well-formed JSON response object that misses
the required string field content is not rejected: JSON.parse succeeds and
both transcribeAudio and reformatText return it as their result instead of
failing with a ServiceError. -/
theorem schema_violating_response_accepted :
    transcribeAudio ai0 "" "audio/webm" (Except.ok jsonMissingContent) =
      Except.ok (JsValue.obj [("title", JsValue.str "T")]) ∧
    reformatText ai0 "C0" "Email" "Formal" (Except.ok jsonMissingContent) =
      Except.ok (JsValue.obj [("title", JsValue.str "T")]) ∧
    specRequiredShape (JsValue.obj [("title", JsValue.str "T")]) = false :=
  ⟨rfl, rfl, rfl⟩

/-- Claim C3 amended: a failed service call, an empty response body, a
whitespace-only body, and a body that is not well-formed JSON all make
transcribeAudio and reformatText fail, and after a failed request settles
the corresponding busy flag is false and lastError is set; but a well-formed
JSON object violating the schema is returned without client-side validation
(the counterexample), so only parse failures are rejected. -/
theorem parse_failures_rejected_and_error_state_set :
    (∃ m, transcribeAudio ai0 "" "audio/webm" (Except.error ()) = Except.error m) ∧
    (∃ m, transcribeAudio ai0 "" "audio/webm" (Except.ok "") = Except.error m) ∧
    (∃ m, transcribeAudio ai0 "" "audio/webm" (Except.ok "   ") = Except.error m) ∧
    (∃ m, transcribeAudio ai0 "" "audio/webm" (Except.ok "not json") = Except.error m) ∧
    (∃ m, reformatText ai0 "C0" "Email" "Formal" (Except.ok "") = Except.error m) ∧
    (∃ m, reformatText ai0 "C0" "Email" "Formal" (Except.ok "not json") = Except.error m) ∧
    (∀ (s : AppState) (req : TranscribeRequest) (rest : List TranscribeRequest),
      s.pendingTranscribe = req :: rest →
      (stepApp s (AppEvent.transcribeDone (Except.error ()))).isLoading.transcription = false ∧
      (stepApp s (AppEvent.transcribeDone (Except.error ()))).error =
        some "Failed to transcribe audio. Please try again.") ∧
    (∀ (s : AppState) (r : ReformatRequest) (rest : List ReformatRequest),
      s.pendingReformat = r :: rest →
      (stepApp s (AppEvent.reformatDone (Except.error ()))).isLoading.reformatting = false ∧
      (stepApp s (AppEvent.reformatDone (Except.error ()))).error =
        some "Failed to reformat text. Please try again.") := by
  refine ⟨⟨_, rfl⟩, ⟨_, rfl⟩, ⟨_, rfl⟩, ⟨_, rfl⟩, ⟨_, rfl⟩, ⟨_, rfl⟩, ?_, ?_⟩
  · intro s req rest h
    constructor <;> simp [stepApp, handleSendAudioSettle, h]
  · intro s r rest h
    constructor <;> simp [stepApp, handleReformatSettle, h]

/-- Claim C3 amended witness: a failed transcription settling in a concrete
state clears the flag and sets the error. -/
theorem parse_failures_rejected_and_error_state_set_witness :
    (stepApp (stepApp initApp (AppEvent.sendAudio b0))
      (AppEvent.transcribeDone (Except.error ()))).isLoading.transcription = false ∧
    (stepApp (stepApp initApp (AppEvent.sendAudio b0))
      (AppEvent.transcribeDone (Except.error ()))).error =
      some "Failed to transcribe audio. Please try again." :=
  parse_failures_rejected_and_error_state_set.2.2.2.2.2.2.1
    (stepApp initApp (AppEvent.sendAudio b0)) ⟨b0, b0.blobType⟩ [] (by decide)

/-- Claim C4 counterexample: handleSendAudio clears transcriptionResult up
front, so after a previous successful transcription t0, a new send whose
request then fails leaves transcriptionResult null, not the value held
before the send. -/
theorem failed_send_discards_previous_result :
    appAfterFirstResult.transcriptionResult = some t0 ∧
    (stepApp (stepApp appAfterFirstResult (AppEvent.sendAudio b0))
      (AppEvent.transcribeDone (Except.error ()))).transcriptionResult = none := by
  decide

/-- Claim C4 amended: no partial result is ever stored by a failed send, but
the prior value is not restored either: onSend clears both stored results
before the remote call, so whatever transcriptionResult held before, it is
null while the request is in flight and still null after the request fails,
with lastError set. -/
theorem failed_send_leaves_result_null (s : AppState) (b : Blob)
    (h : s.pendingTranscribe = []) :
    ((stepApp s (AppEvent.sendAudio b)).transcriptionResult = none) ∧
    ((stepApp (stepApp s (AppEvent.sendAudio b))
      (AppEvent.transcribeDone (Except.error ()))).transcriptionResult = none) ∧
    ((stepApp (stepApp s (AppEvent.sendAudio b))
      (AppEvent.transcribeDone (Except.error ()))).error =
      some "Failed to transcribe audio. Please try again.") := by
  refine ⟨?_, ?_, ?_⟩ <;>
    simp [stepApp, handleSendAudioStart, handleSendAudioSettle, h]

/-- Claim C4 amended witness: a failed first send from a state already
holding a result leaves transcriptionResult null with the error set. -/
theorem failed_send_leaves_result_null_witness :
    ((stepApp appAfterFirstResult (AppEvent.sendAudio b0)).transcriptionResult = none) ∧
    ((stepApp (stepApp appAfterFirstResult (AppEvent.sendAudio b0))
      (AppEvent.transcribeDone (Except.error ()))).transcriptionResult = none) ∧
    ((stepApp (stepApp appAfterFirstResult (AppEvent.sendAudio b0))
      (AppEvent.transcribeDone (Except.error ()))).error =
      some "Failed to transcribe audio. Please try again.") :=
  failed_send_leaves_result_null appAfterFirstResult b0 (by decide)
